import Mathlib

/-!
Verification of the flexer-osint session/identity consistency engine.

The definitions below are a shallow embedding of the TypeScript source:
  - src/types.ts            (the UserProfile record)
  - src/App.tsx             (session store, auth bootstrap, profile
                             subscription handler, render precedence chain)
  - src/components/UserDashboard.tsx (tools subscription guard,
                             pending-approval screen)
  - src/services/geminiService.ts    (summarization fallback)
Each definition's doc comment names the source lines it embeds.
-/

namespace FlexerOSINT

/-- The UserProfile record, from src/types.ts. -/
structure UserProfile where
  uid : String
  email : String
  isAdmin : Bool
  isApproved : Bool
  lastSessionId : String
deriving DecidableEq, Repr

/-- The rendered React state of App (src/App.tsx lines 23-28) that the
claims talk about: the authenticated user (by uid), the profile, the
session-conflict flag and the fatal bootstrap diagnostic.  The transient
initial loading flag is not part of any claim and is omitted. -/
structure AppState where
  user : Option String
  profile : Option UserProfile
  sessionConflict : Bool
  permissionError : Option String
deriving DecidableEq, Repr

/-- The profile onSnapshot success callback, src/App.tsx lines 76-83.
A snapshot either carries the profile document (exists) or not.
When it exists the profile is stored and the conflict flag is recomputed
as (lastSessionId of the record differs from the captured currentSid);
when it does not exist the callback body is skipped entirely. -/
def onSnapshotNext (currentSid : String) (snapshot : Option UserProfile)
    (s : AppState) : AppState :=
  match snapshot with
  | some updatedData =>
      { s with profile := some updatedData,
               sessionConflict := updatedData.lastSessionId != currentSid }
  | none => s

/-- getLocalSessionId, src/App.tsx lines 30-37.  The device-local store
(localStorage key flexer_sid) is an optional string; freshUuid stands for
the value uuidv4() would produce on this call.  Returns the token and the
store contents afterwards. -/
def getLocalSessionId (store : Option String) (freshUuid : String) :
    String × Option String :=
  match store with
  | some sid => (sid, some sid)
  | none => (freshUuid, some freshUuid)

/-- The localStorage.removeItem side of handleLogout, src/App.tsx
line 118: the persisted token is removed. -/
def clearSid (_store : Option String) : Option String := none

/-- The seven screens the App render chain can produce
(src/App.tsx lines 121-269, with the pending-approval screen coming from
UserDashboard, src/components/UserDashboard.tsx lines 100-114). -/
inductive Screen where
  | errorScreen
  | conflictScreen
  | loginRegister
  | loadingScreen
  | pendingApproval
  | adminPanel
  | toolScreen
deriving DecidableEq, Repr

/-- The render precedence chain of App, src/App.tsx lines 129-269,
after the transient initial load: permissionError first, then
sessionConflict, then the unauthenticated forms, then the profile-loading
spinner, then AdminPanel on isAdmin, otherwise UserDashboard, which shows
the pending-approval screen when isApproved is false
(src/components/UserDashboard.tsx lines 100-114) and the tool screen
otherwise. -/
def viewRouter (authenticated : Bool) (conflicted : Bool)
    (bootstrapError : Option String) (profile : Option UserProfile) :
    Screen :=
  match bootstrapError with
  | some _ => Screen.errorScreen
  | none =>
      if conflicted then Screen.conflictScreen
      else if authenticated = false then Screen.loginRegister
      else
        match profile with
        | none => Screen.loadingScreen
        | some p =>
            if p.isAdmin then Screen.adminPanel
            else if p.isApproved = false then Screen.pendingApproval
            else Screen.toolScreen

/-- Modelled from the spec: the View Router exactly as section 4.3 of the
spec words it, with its stated precedence order (error, conflict, loading,
unauthenticated, pending-approval, administrative, tool).  Used only to
compare the spec wording with the viewRouter taken from the source. -/
def viewRouterSpec (authenticated profileLoaded conflicted
    bootstrapError : Bool) (p : UserProfile) : Screen :=
  if bootstrapError then Screen.errorScreen
  else if conflicted then Screen.conflictScreen
  else if authenticated && !profileLoaded then Screen.loadingScreen
  else if !authenticated then Screen.loginRegister
  else if p.isApproved = false then Screen.pendingApproval
  else if p.isAdmin then Screen.adminPanel
  else Screen.toolScreen

/-- The spec wording of the View Router with the one correction the code
forces: the administrative check precedes the pending-approval check,
as in the source render chain. -/
def viewRouterSpecAmended (authenticated profileLoaded conflicted
    bootstrapError : Bool) (p : UserProfile) : Screen :=
  if bootstrapError then Screen.errorScreen
  else if conflicted then Screen.conflictScreen
  else if authenticated && !profileLoaded then Screen.loadingScreen
  else if !authenticated then Screen.loginRegister
  else if p.isAdmin then Screen.adminPanel
  else if p.isApproved = false then Screen.pendingApproval
  else Screen.toolScreen

/-- A Firebase error as the bootstrap catch block sees it
(src/App.tsx lines 93-99): an error code and a message. -/
structure AppError where
  code : String
  message : String
deriving DecidableEq, Repr

/-- The fixed diagnostic shown for a permission-denied bootstrap failure,
src/App.tsx line 96. -/
def accessDeniedDiagnostic : String :=
  "Access Denied: Your Firestore Security Rules are blocking the app. Please ensure you have configured your database rules correctly in the Firebase Console."

/-- The bootstrap catch block, src/App.tsx lines 93-99: a
permission-denied code yields the fixed remediation diagnostic, any other
failure yields a diagnostic wrapping the original message. -/
def bootstrapCatch (err : AppError) : String :=
  if err.code = "permission-denied" then accessDeniedDiagnostic
  else "System Error: " ++ err.message

/-- The observable steps taken by the authenticated branch of the
onAuthStateChanged handler (src/App.tsx lines 46-100), in program order:
local React state writes, Firestore writes, the subscription start, and
the final setUser / setPermissionError. -/
inductive BootstrapAction where
  | setLocalProfile (p : UserProfile)
  | writeProfileDoc (p : UserProfile)
  | mergeWriteSessionId (sid : String)
  | subscribeProfile
  | setAuthUser (uid : String)
  | setErrorDiagnostic (msg : String)
deriving DecidableEq, Repr

/-- The profile created for a never-seen identity, src/App.tsx
lines 56-62. -/
def newUserProfile (uid email sid : String) : UserProfile :=
  { uid := uid, email := email, isAdmin := false, isApproved := false,
    lastSessionId := sid }

/-- The authenticated branch of the onAuthStateChanged handler,
src/App.tsx lines 46-100, as the sequence of observable actions it takes,
parameterised by the outcome of the getDoc point read and of the setDoc
write.  New user (getDoc finds nothing): write the full default profile,
then surface it locally, subscribe, setUser.  Existing user: surface the
existing profile with lastSessionId overridden to the local sid, then
issue the merging write of lastSessionId, subscribe, setUser.  Any
failure falls into the catch block, which only records the diagnostic:
no retry, no subscription, no setUser. -/
def bootstrapAuthed (uid email sid : String)
    (getDocRes : Except AppError (Option UserProfile))
    (setDocRes : Except AppError Unit) : List BootstrapAction :=
  match getDocRes with
  | Except.error e => [BootstrapAction.setErrorDiagnostic (bootstrapCatch e)]
  | Except.ok none =>
      match setDocRes with
      | Except.error e =>
          [BootstrapAction.writeProfileDoc (newUserProfile uid email sid),
           BootstrapAction.setErrorDiagnostic (bootstrapCatch e)]
      | Except.ok _ =>
          [BootstrapAction.writeProfileDoc (newUserProfile uid email sid),
           BootstrapAction.setLocalProfile (newUserProfile uid email sid),
           BootstrapAction.subscribeProfile,
           BootstrapAction.setAuthUser uid]
  | Except.ok (some existing) =>
      match setDocRes with
      | Except.error e =>
          [BootstrapAction.setLocalProfile
             { existing with lastSessionId := sid },
           BootstrapAction.mergeWriteSessionId sid,
           BootstrapAction.setErrorDiagnostic (bootstrapCatch e)]
      | Except.ok _ =>
          [BootstrapAction.setLocalProfile
             { existing with lastSessionId := sid },
           BootstrapAction.mergeWriteSessionId sid,
           BootstrapAction.subscribeProfile,
           BootstrapAction.setAuthUser uid]

/-- Semantics of the merging write issued at src/App.tsx line 71: the
repository applies the partial document carrying only lastSessionId onto
the remote record, leaving every other field untouched. -/
def applyMergeLastSessionId (remote : UserProfile) (sid : String) :
    UserProfile :=
  { remote with lastSessionId := sid }

/-- The state of one mounted App, as the effect of src/App.tsx
lines 39-114 maintains it: the device-local token store, the rendered
AppState, the set of profile subscriptions that have been opened and not
yet cancelled (each with the currentSid its callback captured, keyed by
a creation counter), and the unsubscribeProfile variable, which holds the
key of the most recently opened subscription. -/
structure EngineState where
  store : Option String
  app : AppState
  live : List (Nat × String)
  handle : Option Nat
  nextId : Nat
deriving DecidableEq, Repr

/-- One run-to-completion execution of the onAuthStateChanged callback,
src/App.tsx lines 42-108, on the success path (the getDoc and setDoc of
the bootstrap succeed; repoRecord is what the point read returns, fresh
is the uuid a fresh token generation would produce).  A signed-in event
obtains the sid, builds the profile exactly as the two bootstrap branches
do, opens a new subscription capturing that sid and stores its key in
unsubscribeProfile - without cancelling any previously opened
subscription - and sets the user.  A signed-out event clears user,
profile and conflict flag and cancels the subscription held in
unsubscribeProfile, if any. -/
def handleAuthEvent (fresh : String) (repoRecord : Option UserProfile)
    (ev : Option (String × String)) (st : EngineState) : EngineState :=
  match ev with
  | some (uid, email) =>
      let sid := (getLocalSessionId st.store fresh).1
      let prof : UserProfile :=
        match repoRecord with
        | none => newUserProfile uid email sid
        | some existing => { existing with lastSessionId := sid }
      { st with
        store := (getLocalSessionId st.store fresh).2,
        app := { st.app with
                 user := some uid,
                 profile := some prof,
                 permissionError := none },
        live := (st.nextId, sid) :: st.live,
        handle := some st.nextId,
        nextId := st.nextId + 1 }
  | none =>
      { st with
        app := { st.app with
                 user := none,
                 profile := none,
                 sessionConflict := false,
                 permissionError := none },
        live :=
          match st.handle with
          | some h => st.live.filter (fun e => e.1 != h)
          | none => st.live }

/-- Delivery of a profile-change event to the subscription with key i:
if that subscription has been cancelled its callback no longer exists and
nothing happens; otherwise the onSnapshot callback of src/App.tsx
lines 76-83 runs with the sid it captured. -/
def handleProfileEvent (i : Nat) (snapshot : Option UserProfile)
    (st : EngineState) : EngineState :=
  match st.live.lookup i with
  | none => st
  | some sid => { st with app := onSnapshotNext sid snapshot st.app }

/-- The placeholder returned when summarization fails,
src/services/geminiService.ts line 20. -/
def geminiPlaceholder : String :=
  "Could not generate AI analysis for this data."

/-- analyzeOSINTResult, src/services/geminiService.ts lines 3-22, as a
function of the outcome of the external generateContent call: the
response text on success, the fixed placeholder on any failure; the
function always returns a string, never an error. -/
def analyzeOSINTResult (outcome : Except String String) : String :=
  match outcome with
  | Except.ok text => text
  | Except.error _ => geminiPlaceholder

/-- The tools useEffect of UserDashboard
(src/components/UserDashboard.tsx lines 31-38, and identically in the
second variant lines 262-276): when the profile is not approved the
effect returns before onSnapshot, so no subscription to the tools
collection is created; otherwise exactly one is. -/
def toolsEffectSubscribes (profile : UserProfile) : Bool :=
  if !profile.isApproved then false
  else true

/-- needle is a leading segment of hay (character lists). -/
def startsList : List Char → List Char → Bool
  | [], _ => true
  | _ :: _, [] => false
  | a :: as, b :: bs => a == b && startsList as bs

/-- needle occurs contiguously somewhere in hay (character lists). -/
def occursList (needle : List Char) : List Char → Bool
  | [] => needle.isEmpty
  | c :: cs => startsList needle (c :: cs) || occursList needle cs

/-- sub occurs verbatim inside s. -/
def strOccurs (sub s : String) : Bool := occursList sub.data s.data

theorem startsList_append (l t : List Char) :
    startsList l (l ++ t) = true := by
  induction l with
  | nil => rfl
  | cons a as ih => simp [startsList, ih]

theorem startsList_self (l : List Char) : startsList l l = true := by
  simpa using startsList_append l []

theorem occursList_append_self (l n : List Char) :
    occursList n (l ++ n) = true := by
  induction l with
  | nil =>
      cases n with
      | nil => rfl
      | cons c cs => simp [occursList, startsList_self]
  | cons p ps ih => simp [occursList, ih]

/-- A message is always a verbatim substring of the string obtained by
prefixing it with a wrapper. -/
theorem strOccurs_wrap (w m : String) : strOccurs m (w ++ m) = true := by
  simp [strOccurs, occursList_append_self]

theorem lookup_filter_ne (h : Nat) (l : List (Nat × String)) :
    (l.filter (fun e => e.1 != h)).lookup h = none := by
  induction l with
  | nil => rfl
  | cons a as ih =>
      rcases a with ⟨k, v⟩
      by_cases hc : k = h
      · subst hc
        simpa [List.filter_cons] using ih
      · have hb : ((k, v) : Nat × String).1 != h := by simp [hc]
        have hk : (h == k) = false := by simp [Ne.symm hc]
        rw [List.filter_cons, if_pos hb]
        simp [List.lookup, hk, ih]

/-- C1: on every profile-change event that delivers a record while sid is
the locally captured session id, the resulting state has the conflict
flag set exactly when the record's lastSessionId differs from sid and
cleared exactly when they are equal, and the record becomes the rendered
profile; the comparison is made on every such event, the device's own
echoed write included. -/
theorem conflict_flag_tracks_session_mismatch (sid : String)
    (rec : UserProfile) (s : AppState) :
    ((onSnapshotNext sid (some rec) s).sessionConflict = true ↔
      rec.lastSessionId ≠ sid)
    ∧ ((onSnapshotNext sid (some rec) s).sessionConflict = false ↔
      rec.lastSessionId = sid)
    ∧ (onSnapshotNext sid (some rec) s).profile = some rec := by
  refine ⟨?_, ?_, rfl⟩ <;> simp [onSnapshotNext]

/-- C9: a profile-change event whose snapshot reports that the document
no longer exists makes no state change at all: profile, conflict flag and
diagnostic all keep their previous values. -/
theorem missing_snapshot_changes_nothing (sid : String) (s : AppState) :
    onSnapshotNext sid none s = s := rfl

/-- C2: bootstrapping an identity whose profile record exists first
surfaces the existing profile locally with lastSessionId overridden to
the device session id, and only then issues the merging write of
lastSessionId; applying that merging write to any remote record sets
lastSessionId and leaves every other field unchanged. -/
theorem existing_user_bootstrap (uid email sid : String)
    (existing : UserProfile) :
    bootstrapAuthed uid email sid (Except.ok (some existing))
        (Except.ok ()) =
      [BootstrapAction.setLocalProfile { existing with lastSessionId := sid },
       BootstrapAction.mergeWriteSessionId sid,
       BootstrapAction.subscribeProfile,
       BootstrapAction.setAuthUser uid]
    ∧ (∀ remote : UserProfile,
        (applyMergeLastSessionId remote sid).lastSessionId = sid ∧
        (applyMergeLastSessionId remote sid).uid = remote.uid ∧
        (applyMergeLastSessionId remote sid).email = remote.email ∧
        (applyMergeLastSessionId remote sid).isAdmin = remote.isAdmin ∧
        (applyMergeLastSessionId remote sid).isApproved =
          remote.isApproved) :=
  ⟨rfl, fun _ => ⟨rfl, rfl, rfl, rfl, rfl⟩⟩

/-- C3: the first bootstrap of a never-seen identity creates a profile
with isApproved false, isAdmin false and lastSessionId the creating
device's session id, writes it to the repository, and the render chain
places such a user on the pending-approval screen, never directly on the
tool screen. -/
theorem new_user_bootstrap (uid email sid : String) :
    (newUserProfile uid email sid).isApproved = false
    ∧ (newUserProfile uid email sid).isAdmin = false
    ∧ (newUserProfile uid email sid).lastSessionId = sid
    ∧ bootstrapAuthed uid email sid (Except.ok none) (Except.ok ()) =
        [BootstrapAction.writeProfileDoc (newUserProfile uid email sid),
         BootstrapAction.setLocalProfile (newUserProfile uid email sid),
         BootstrapAction.subscribeProfile,
         BootstrapAction.setAuthUser uid]
    ∧ viewRouter true false none (some (newUserProfile uid email sid)) =
        Screen.pendingApproval
    ∧ viewRouter true false none (some (newUserProfile uid email sid)) ≠
        Screen.toolScreen := by
  refine ⟨rfl, rfl, rfl, rfl, rfl, ?_⟩
  intro hEq
  exact Screen.noConfusion hEq

/-- C8: the summarization call is total on every outcome of the external
text-generation service: a success returns the response text and any
failure returns the fixed placeholder, so no error ever propagates to the
caller. -/
theorem summarization_never_propagates_failure :
    (∀ e : String, analyzeOSINTResult (Except.error e) = geminiPlaceholder)
    ∧ (∀ t : String, analyzeOSINTResult (Except.ok t) = t) :=
  ⟨fun _ => rfl, fun _ => rfl⟩

/-- C10: for every profile with isApproved false, the dashboard's tools
effect returns before subscribing, so no subscription to the tools
collection is created for an unapproved user. -/
theorem unapproved_user_never_subscribes_tools (p : UserProfile)
    (h : p.isApproved = false) : toolsEffectSubscribes p = false := by
  simp [toolsEffectSubscribes, h]

/-- Witness for C10 at a concrete unapproved profile. -/
theorem unapproved_user_never_subscribes_tools_witness :
    ({ uid := "u", email := "e", isAdmin := false, isApproved := false,
       lastSessionId := "s" } : UserProfile).isApproved = false
    ∧ toolsEffectSubscribes
        { uid := "u", email := "e", isAdmin := false, isApproved := false,
          lastSessionId := "s" } = false :=
  ⟨rfl, unapproved_user_never_subscribes_tools
    { uid := "u", email := "e", isAdmin := false, isApproved := false,
      lastSessionId := "s" } rfl⟩

/-- C7: the session token store is idempotent within one device-storage
scope: a second call without an intervening clear returns the identical
token and leaves the store unchanged; immediately after a clear - which
explicit logout performs - a call generates the fresh token, persists it
and returns it, so the post-clear token differs from the pre-clear one
whenever the freshly generated token does. -/
theorem session_token_store_contract (store : Option String)
    (f g : String) :
    getLocalSessionId ((getLocalSessionId store f).2) g =
      ((getLocalSessionId store f).1, (getLocalSessionId store f).2)
    ∧ getLocalSessionId (clearSid ((getLocalSessionId store f).2)) g =
        (g, some g)
    ∧ (g ≠ (getLocalSessionId store f).1 →
        (getLocalSessionId (clearSid ((getLocalSessionId store f).2)) g).1
          ≠ (getLocalSessionId store f).1) := by
  cases store <;> simp [getLocalSessionId, clearSid]

/-- Witness for C7 at a concrete empty store and distinct tokens. -/
theorem session_token_store_contract_witness :
    getLocalSessionId ((getLocalSessionId none "a").2) "b" =
      ((getLocalSessionId none "a").1, (getLocalSessionId none "a").2)
    ∧ ("b" : String) ≠ (getLocalSessionId none "a").1
    ∧ (getLocalSessionId (clearSid ((getLocalSessionId none "a").2)) "b").1
        ≠ (getLocalSessionId none "a").1 :=
  ⟨(session_token_store_contract none "a" "b").1, by decide,
   (session_token_store_contract none "a" "b").2.2 (by decide)⟩

/-- C4 counterexample: at an authenticated, loaded, unconflicted,
error-free state whose profile has isAdmin true and isApproved false, the
source render chain shows the administrative screen while the claimed
precedence (pending-approval before administrative) selects the
pending-approval screen. -/
theorem router_precedence_counterexample :
    viewRouter true false none
        (some { uid := "u", email := "e", isAdmin := true,
                isApproved := false, lastSessionId := "s" }) =
      Screen.adminPanel
    ∧ viewRouterSpec true true false false
        { uid := "u", email := "e", isAdmin := true,
          isApproved := false, lastSessionId := "s" } =
      Screen.pendingApproval
    ∧ Screen.adminPanel ≠ Screen.pendingApproval :=
  ⟨rfl, rfl, fun hEq => Screen.noConfusion hEq⟩

/-- C4 amended: the render chain is a pure total function of
(authenticated, profileLoaded, conflicted, bootstrapError, profile) with
the fixed precedence error, conflict, loading when authenticated but not
loaded, unauthenticated forms, then - administrative screen when
profile.isAdmin, else pending-approval when isApproved is false, else the
tool screen: the administrative check precedes the pending-approval
check. -/
theorem router_matches_amended_precedence (a c : Bool) (e : Option String)
    (prof : Option UserProfile) (dflt : UserProfile) :
    viewRouter a c e prof =
      viewRouterSpecAmended a prof.isSome c e.isSome (prof.getD dflt) := by
  rcases e with _ | msg <;> rcases prof with _ | p <;>
    cases a <;> cases c <;>
    simp [viewRouter, viewRouterSpecAmended]

/-- The transport-failure diagnostic can never collide with the fixed
permission-denied diagnostic: it always starts with System Error while
the fixed text does not. -/
theorem systemError_ne_accessDenied (m : String) :
    "System Error: " ++ m ≠ accessDeniedDiagnostic := by
  intro hEq
  have h1 : startsList ("System Error: ").data
      ("System Error: " ++ m).data = true := by
    rw [String.data_append]
    exact startsList_append _ _
  rw [hEq] at h1
  have h2 : ¬ (startsList ("System Error: ").data
      accessDeniedDiagnostic.data = true) := by decide
  exact h2 h1

/-- C6 counterexample: a permission-denied bootstrap failure is not
surfaced verbatim: its diagnostic is the fixed remediation text and the
original failure message does not occur in it. -/
theorem bootstrap_verbatim_counterexample :
    bootstrapAuthed "u" "e" "s"
        (Except.error { code := "permission-denied", message := "zzzq" })
        (Except.ok ()) =
      [BootstrapAction.setErrorDiagnostic
        (bootstrapCatch { code := "permission-denied", message := "zzzq" })]
    ∧ strOccurs "zzzq"
        (bootstrapCatch
          { code := "permission-denied", message := "zzzq" }) = false :=
  ⟨rfl, by decide⟩

/-- C6 amended: any failure of bootstrap steps 2-4 - the point read, the
profile-creation write or the claim write - ends the handler in the
catch block: the trace of each failing branch is given exactly, and for
every failing combination of outcomes the handler opens no subscription,
sets no user, and ends with the single recorded diagnostic (no retry);
a permission-denied failure gets the fixed remediation diagnostic (its
own message discarded), any other failure gets a System Error diagnostic
carrying its message verbatim, and the two diagnostics are always
distinct. -/
theorem bootstrap_failure_terminal (uid email sid : String)
    (err : AppError) (setDocRes : Except AppError Unit)
    (existing : UserProfile) :
    bootstrapAuthed uid email sid (Except.error err) setDocRes =
      [BootstrapAction.setErrorDiagnostic (bootstrapCatch err)]
    ∧ bootstrapAuthed uid email sid (Except.ok none) (Except.error err) =
      [BootstrapAction.writeProfileDoc (newUserProfile uid email sid),
       BootstrapAction.setErrorDiagnostic (bootstrapCatch err)]
    ∧ bootstrapAuthed uid email sid (Except.ok (some existing))
        (Except.error err) =
      [BootstrapAction.setLocalProfile
         { existing with lastSessionId := sid },
       BootstrapAction.mergeWriteSessionId sid,
       BootstrapAction.setErrorDiagnostic (bootstrapCatch err)]
    ∧ (∀ (getDocRes : Except AppError (Option UserProfile))
        (setDocRes2 : Except AppError Unit),
        (getDocRes = Except.error err ∨ setDocRes2 = Except.error err) →
        BootstrapAction.subscribeProfile ∉
          bootstrapAuthed uid email sid getDocRes setDocRes2
        ∧ (∀ u, BootstrapAction.setAuthUser u ∉
            bootstrapAuthed uid email sid getDocRes setDocRes2)
        ∧ ∃ e2 : AppError,
            (bootstrapAuthed uid email sid getDocRes setDocRes2).getLast?
              = some (BootstrapAction.setErrorDiagnostic
                  (bootstrapCatch e2)))
    ∧ (err.code = "permission-denied" →
        bootstrapCatch err = accessDeniedDiagnostic)
    ∧ (err.code ≠ "permission-denied" →
        bootstrapCatch err = "System Error: " ++ err.message ∧
        strOccurs err.message (bootstrapCatch err) = true ∧
        bootstrapCatch err ≠ accessDeniedDiagnostic) := by
  refine ⟨rfl, rfl, rfl, ?_, ?_, ?_⟩
  · intro g s2 hgs
    cases g with
    | error e2 =>
        exact ⟨by simp [bootstrapAuthed],
               fun u => by simp [bootstrapAuthed],
               e2, rfl⟩
    | ok r =>
        cases s2 with
        | error e2 =>
            cases r with
            | none =>
                exact ⟨by simp [bootstrapAuthed],
                       fun u => by simp [bootstrapAuthed],
                       e2, rfl⟩
            | some p =>
                exact ⟨by simp [bootstrapAuthed],
                       fun u => by simp [bootstrapAuthed],
                       e2, rfl⟩
        | ok u2 =>
            rcases hgs with hg | hs
            · exact absurd hg (by simp)
            · exact absurd hs (by simp)
  · intro hc
    simp [bootstrapCatch, hc]
  · intro hc
    have hv : bootstrapCatch err = "System Error: " ++ err.message := by
      simp [bootstrapCatch, hc]
    refine ⟨hv, ?_, ?_⟩
    · rw [hv]
      exact strOccurs_wrap _ _
    · rw [hv]
      exact systemError_ne_accessDenied _

/-- Witness for C6 amended, applying it once to a transport failure and
once to a permission-denied failure, and exercising the terminality
conjunct at a concrete failing claim write. -/
theorem bootstrap_failure_terminal_witness :
    bootstrapAuthed "u" "e" "s"
        (Except.error { code := "unavailable", message := "network down" })
        (Except.ok ()) =
      [BootstrapAction.setErrorDiagnostic
        (bootstrapCatch { code := "unavailable", message := "network down" })]
    ∧ bootstrapAuthed "u" "e" "s"
        (Except.ok (some { uid := "w", email := "w@x", isAdmin := false,
                           isApproved := true, lastSessionId := "old" }))
        (Except.error { code := "unavailable", message := "network down" }) =
      [BootstrapAction.setLocalProfile
         { uid := "w", email := "w@x", isAdmin := false,
           isApproved := true, lastSessionId := "s" },
       BootstrapAction.mergeWriteSessionId "s",
       BootstrapAction.setErrorDiagnostic
         (bootstrapCatch { code := "unavailable", message := "network down" })]
    ∧ BootstrapAction.subscribeProfile ∉
        bootstrapAuthed "u" "e" "s"
          (Except.ok (some { uid := "w", email := "w@x", isAdmin := false,
                             isApproved := true, lastSessionId := "old" }))
          (Except.error { code := "unavailable", message := "network down" })
    ∧ bootstrapCatch { code := "unavailable", message := "network down" } =
        "System Error: " ++ "network down"
    ∧ strOccurs "network down"
        (bootstrapCatch
          { code := "unavailable", message := "network down" }) = true
    ∧ bootstrapCatch { code := "unavailable", message := "network down" }
        ≠ accessDeniedDiagnostic
    ∧ bootstrapCatch { code := "permission-denied", message := "x" } =
        accessDeniedDiagnostic :=
  ⟨(bootstrap_failure_terminal "u" "e" "s"
      { code := "unavailable", message := "network down" }
      (Except.ok ())
      { uid := "w", email := "w@x", isAdmin := false,
        isApproved := true, lastSessionId := "old" }).1,
   (bootstrap_failure_terminal "u" "e" "s"
      { code := "unavailable", message := "network down" }
      (Except.ok ())
      { uid := "w", email := "w@x", isAdmin := false,
        isApproved := true, lastSessionId := "old" }).2.2.1,
   ((bootstrap_failure_terminal "u" "e" "s"
      { code := "unavailable", message := "network down" }
      (Except.ok ())
      { uid := "w", email := "w@x", isAdmin := false,
        isApproved := true, lastSessionId := "old" }).2.2.2.1
      (Except.ok (some { uid := "w", email := "w@x", isAdmin := false,
                         isApproved := true, lastSessionId := "old" }))
      (Except.error { code := "unavailable", message := "network down" })
      (Or.inr rfl)).1,
   ((bootstrap_failure_terminal "u" "e" "s"
      { code := "unavailable", message := "network down" }
      (Except.ok ())
      { uid := "w", email := "w@x", isAdmin := false,
        isApproved := true, lastSessionId := "old" }).2.2.2.2.2
      (by decide)).1,
   ((bootstrap_failure_terminal "u" "e" "s"
      { code := "unavailable", message := "network down" }
      (Except.ok ())
      { uid := "w", email := "w@x", isAdmin := false,
        isApproved := true, lastSessionId := "old" }).2.2.2.2.2
      (by decide)).2.1,
   ((bootstrap_failure_terminal "u" "e" "s"
      { code := "unavailable", message := "network down" }
      (Except.ok ())
      { uid := "w", email := "w@x", isAdmin := false,
        isApproved := true, lastSessionId := "old" }).2.2.2.2.2
      (by decide)).2.2,
   (bootstrap_failure_terminal "u" "e" "s"
      { code := "permission-denied", message := "x" }
      (Except.ok ())
      { uid := "w", email := "w@x", isAdmin := false,
        isApproved := true, lastSessionId := "old" }).2.2.2.2.1 rfl⟩

/-- An existing remote profile for identity u1, used in the
identity-switch scenario. -/
def scenarioP1 : UserProfile :=
  { uid := "u1", email := "a@x", isAdmin := false, isApproved := true,
    lastSessionId := "old1" }

/-- An existing remote profile for identity u2, used in the
identity-switch scenario. -/
def scenarioP2 : UserProfile :=
  { uid := "u2", email := "b@x", isAdmin := false, isApproved := true,
    lastSessionId := "old2" }

/-- A freshly mounted App: empty store, no user, no subscription. -/
def scenarioInit : EngineState :=
  { store := none,
    app := { user := none, profile := none, sessionConflict := false,
             permissionError := none },
    live := [], handle := none, nextId := 0 }

/-- The engine after u1 signs in on this device. -/
def scenarioAfterU1 : EngineState :=
  handleAuthEvent "A1" (some scenarioP1) (some ("u1", "a@x")) scenarioInit

/-- The engine after the identity then changes directly to u2 (a
signed-in event for u2 with no signed-out event in between). -/
def scenarioAfterU2 : EngineState :=
  handleAuthEvent "B1" (some scenarioP2) (some ("u2", "b@x"))
    scenarioAfterU1

/-- C5 counterexample: a direct identity change from u1 to u2 does not
close u1's profile subscription before opening u2's - subscription 0 is
still open afterwards - and a stale event delivered on it overwrites the
rendered state of the current identity with u1's record and raises the
conflict flag. -/
theorem stale_subscription_counterexample :
    scenarioAfterU2.app.user = some "u2"
    ∧ scenarioAfterU2.live.lookup 0 = some "A1"
    ∧ scenarioAfterU2.app.profile =
        some { scenarioP2 with lastSessionId := "A1" }
    ∧ (handleProfileEvent 0 (some scenarioP1) scenarioAfterU2).app.profile
        = some scenarioP1
    ∧ (handleProfileEvent 0 (some scenarioP1)
        scenarioAfterU2).app.sessionConflict = true
    ∧ some scenarioP1 ≠ scenarioAfterU2.app.profile :=
  ⟨rfl, rfl, rfl, rfl, by decide, by decide⟩

/-- C5 amended: a signed-out auth event clears the rendered user, profile
and conflict flag and terminates the subscription held in
unsubscribeProfile, so a profile-change event delivered on that
subscription after sign-out makes no state change; in general an event on
any cancelled subscription never mutates state.  (A direct identity
change to a new subject, by contrast, opens its new subscription without
closing the prior one.) -/
theorem signout_teardown (st : EngineState) (h : Nat)
    (hh : st.handle = some h) (fresh : String)
    (repo : Option UserProfile) :
    ((handleAuthEvent fresh repo none st).live.lookup h = none)
    ∧ (∀ snap, handleProfileEvent h snap
        (handleAuthEvent fresh repo none st) =
        handleAuthEvent fresh repo none st)
    ∧ (handleAuthEvent fresh repo none st).app.user = none
    ∧ (handleAuthEvent fresh repo none st).app.profile = none
    ∧ (handleAuthEvent fresh repo none st).app.sessionConflict = false
    ∧ (∀ (i : Nat) (snap : Option UserProfile) (s : EngineState),
        s.live.lookup i = none → handleProfileEvent i snap s = s) := by
  have hl : (handleAuthEvent fresh repo none st).live =
      st.live.filter (fun e => e.1 != h) := by
    simp [handleAuthEvent, hh]
  have hnone : (handleAuthEvent fresh repo none st).live.lookup h =
      none := by
    rw [hl]
    exact lookup_filter_ne h st.live
  have hframe : ∀ (i : Nat) (snap : Option UserProfile)
      (s : EngineState), s.live.lookup i = none →
      handleProfileEvent i snap s = s := by
    intro i snap s hs
    simp [handleProfileEvent, hs]
  exact ⟨hnone, fun snap => hframe h snap _ hnone, rfl, rfl, rfl, hframe⟩

/-- Witness for C5 amended: signing out after u1's login terminates
subscription 0 and a subsequent event on it changes nothing. -/
theorem signout_teardown_witness :
    scenarioAfterU1.handle = some 0
    ∧ (handleAuthEvent "f" none none scenarioAfterU1).live.lookup 0 = none
    ∧ handleProfileEvent 0 (some scenarioP1)
        (handleAuthEvent "f" none none scenarioAfterU1) =
        handleAuthEvent "f" none none scenarioAfterU1 :=
  ⟨rfl, (signout_teardown scenarioAfterU1 0 rfl "f" none).1,
   (signout_teardown scenarioAfterU1 0 rfl "f" none).2.1
     (some scenarioP1)⟩

end FlexerOSINT
